import Mathlib

/-!
Shallow embedding of the land-registry price-prediction core
(`lstm_model.py` and `prediction_api.py`).

Conventions of the embedding:
* Python floats are modelled as exact rationals (`Rat`); the claims under
  study only involve arithmetic that is exact in both semantics.
* JSON records are modelled by `Record`; fields read with `dict.get(k, d)`
  in the source are `Option`-valued, fields read by direct indexing are
  plain.  In the training path (`pandas`), records are assumed to carry
  all numeric fields, so the `Option` defaults there are inert.
* `str.split(sep)`, `int(str)` and string ordering are re-implemented
  structurally over `List Char` so that every definition evaluates inside
  the kernel; they agree with the Python operations on the inputs the
  claims mention.
* A Python function body that can raise and is wrapped in `try/except` by
  its caller is modelled with `Option` (`none` = an exception escaped).
-/

/-- Character classifier for the whitespace stripped by Python `int(str)`. -/
def isSpaceChar (c : Char) : Bool :=
  c = ' ' || c = '\t' || c = '\n' || c = '\r'

/-- Model of Python `str.split(sep)` for a one-character separator, on the
character list of the string.  `splitOnChar c cs` never returns `[]`
(like Python, `"".split(sep) = [""]`). -/
def splitOnChar (c : Char) : List Char → List (List Char)
  | [] => [[]]
  | x :: xs =>
    let r := splitOnChar c xs
    if x = c then [] :: r
    else
      match r with
      | [] => [[x]]
      | y :: ys => (x :: y) :: ys

/-- Strip leading and trailing whitespace, as Python `int(str)` does. -/
def trimChars (cs : List Char) : List Char :=
  ((cs.dropWhile isSpaceChar).reverse.dropWhile isSpaceChar).reverse

/-- Value of a nonempty all-digit character list, `none` otherwise. -/
def digitsToNat (cs : List Char) : Option Nat :=
  if cs = [] then none
  else if cs.all Char.isDigit then
    some (cs.foldl (fun a c => a * 10 + (c.toNat - 48)) 0)
  else none

/-- Model of Python `int(str)`: optional surrounding whitespace, optional
sign, then decimal digits; anything else raises (`none`).  (Digit-group
underscores are not modelled; no claim involves them.) -/
def pyToIntChars (cs : List Char) : Option Int :=
  match trimChars cs with
  | '-' :: rest => (digitsToNat rest).map (fun n => -(n : Int))
  | '+' :: rest => (digitsToNat rest).map (fun n => (n : Int))
  | other => (digitsToNat other).map (fun n => (n : Int))

/-- Lexicographic comparison of character lists (the order `numpy` sorts
label-encoder classes by); structural so that it evaluates. -/
def charListLe : List Char → List Char → Bool
  | [], _ => true
  | _ :: _, [] => false
  | x :: xs, y :: ys =>
    if x = y then charListLe xs ys else decide (x < y)

/-- String comparison used to sort encoder classes. -/
def strLe (a b : String) : Bool :=
  charListLe a.toList b.toList

/-- Insert into a list sorted by `le` (stable insertion sort step). -/
def insertLe (le : α → α → Bool) (a : α) : List α → List α
  | [] => [a]
  | x :: xs => if le a x then a :: x :: xs else x :: insertLe le a xs

/-- Stable insertion sort; stands in for the (order-stable-irrelevant)
sorts of the source: `pandas.sort_values` and `numpy`'s class sort.
No claim under study depends on the tie-breaking of the sort. -/
def insertionSort (le : α → α → Bool) : List α → List α
  | [] => []
  | x :: xs => insertLe le x (insertionSort le xs)

/-- One historical transaction record (the JSON objects of the dataset;
`TransactionRecord` of the spec).  Numeric rate fields are `Option`
because the serving layer reads them with `dict.get(key, default)`. -/
structure Record where
  DISTRICT : String
  MANDAL : String
  VILLAGE : String
  TR_DOOR_NO : String
  WARD_NO : Rat
  BLOCK_NO : Rat
  DOOR_NO : Rat
  COMM_RATE : Option Rat
  COMP_FLOOR1 : Option Rat
  COMP_FLOOR_OTH : Option Rat
  PRE_REV_UNIT_RATE : Option Rat
  UNIT_RATE : Option Rat
  EFFECTIVE_DATE : Nat
  deriving DecidableEq

/-- `PropertyPriceLSTM.load_data` (lstm_model.py 21-38): keep records with
`UNIT_RATE > 0`, then sort by effective date ascending.  A missing
`UNIT_RATE` compares like pandas `NaN > 0` = false, i.e. is dropped. -/
def load_data (raw : List Record) : List Record :=
  insertionSort (fun a b => decide (a.EFFECTIVE_DATE ≤ b.EFFECTIVE_DATE))
    (raw.filter (fun r => decide (0 < r.UNIT_RATE.getD 0)))

/-- `LabelEncoder.fit` (used in `prepare_features`): the classes are the
sorted distinct category strings of the training column. -/
def label_fit (values : List String) : List String :=
  insertionSort strLe values.dedup

/-- `LabelEncoder.transform` on one value: its index among the fitted
classes when seen, an exception (`none`) when unseen. -/
def label_transform (classes : List String) (v : String) : Option Nat :=
  if v ∈ classes then some (classes.indexOf v) else none

/-- The `try: transform except: 0` wrapper of `PropertyPriceLSTM.predict`
(lstm_model.py 160-169): an unseen category falls back to code 0. -/
def encode_or_default (classes : List String) (v : String) : Nat :=
  match label_transform classes v with
  | some c => c
  | none => 0

/-- `PropertyPriceLSTM.prepare_features` (lstm_model.py 40-64): encode the
two categorical columns, assemble the 9-wide feature matrix and the
`UNIT_RATE` target column. -/
def prepare_features (df : List Record) : List (List Rat) × List Rat :=
  (df.map (fun r =>
      [ ((label_fit (df.map Record.MANDAL)).indexOf r.MANDAL : Rat),
        ((label_fit (df.map Record.VILLAGE)).indexOf r.VILLAGE : Rat),
        r.WARD_NO, r.BLOCK_NO, r.DOOR_NO,
        r.COMM_RATE.getD 0, r.COMP_FLOOR1.getD 0, r.COMP_FLOOR_OTH.getD 0,
        r.PRE_REV_UNIT_RATE.getD 0 ]),
   df.map (fun r => r.UNIT_RATE.getD 0))

/-- Minimum of a rate column (0 on the empty column, which the source
never scales). -/
def listMin : List Rat → Rat
  | [] => 0
  | x :: xs => xs.foldl min x

/-- Maximum of a rate column. -/
def listMax : List Rat → Rat
  | [] => 0
  | x :: xs => xs.foldl max x

/-- Column `j` of the feature matrix. -/
def feature_column (rows : List (List Rat)) (j : Nat) : List Rat :=
  rows.map (fun r => r.getD j 0)

/-- One entry of `MinMaxScaler.fit_transform`: `(x - min)/(max - min)`,
with sklearn's zero-range guard (`scale = 1` when the column is
constant). -/
def minmax_scale_value (rows : List (List Rat)) (j : Nat) (x : Rat) : Rat :=
  let lo := listMin (feature_column rows j)
  let hi := listMax (feature_column rows j)
  (x - lo) / (if hi - lo = 0 then 1 else hi - lo)

/-- `MinMaxScaler.fit_transform` over the whole matrix. -/
def minmax_fit_transform (rows : List (List Rat)) : List (List Rat) :=
  rows.map (fun r => r.enum.map (fun jx => minmax_scale_value rows jx.1 jx.2))

/-- `PropertyPriceLSTM.create_sequences` (lstm_model.py 66-79): slide a
window of width `sequence_length` over the chronologically sorted table;
sequence `i` is rows `[i, i+L)`, its target is row `i+L`'s target.
`features.length - sequence_length` is Nat subtraction, i.e. Python's
empty `range` on a negative bound. -/
def create_sequences (sequence_length : Nat) (features : List α)
    (target : List Rat) : List (List α) × List Rat :=
  ((List.range (features.length - sequence_length)).map
      (fun i => (features.drop i).take sequence_length),
   (List.range (features.length - sequence_length)).map
      (fun i => target.getD (i + sequence_length) 0))

/-- The `sequence_length` fixed in `PropertyPriceLSTM.__init__`. -/
def default_sequence_length : Nat := 10

/-- The data-preparation prefix of `PropertyPriceLSTM.train`
(lstm_model.py 105-115): load, encode, scale, build sequences.  The
source performs no insufficient-data check anywhere on this path; the
result feeds straight into the train/test splitter. -/
def train_prepared (sequence_length : Nat) (raw : List Record) :
    List (List (List Rat)) × List Rat :=
  let df := load_data raw
  create_sequences sequence_length
    (minmax_fit_transform (prepare_features df).1) (prepare_features df).2

/-- The inference-time sequence synthesis of `PropertyPriceLSTM.predict`
(lstm_model.py 187-189): `[features_scaled] * self.sequence_length`
repeats the single scaled vector `sequence_length` times. -/
def predict_sequence (sequence_length : Nat) (features_scaled : α) :
    List α :=
  List.replicate sequence_length features_scaled

/-- `load_dataset` (prediction_api.py 18-25): the serving corpus is the
raw JSON array, taken as-is — no filtering of any kind. -/
def load_dataset (raw : List Record) : List Record := raw

/-- The `WARD-BLOCK-DOOR[/...]` pieces of a door identifier: split on
`/`, then split the first segment on `-`. -/
def door_segments (s : String) : List (List Char) :=
  splitOnChar '-' ((splitOnChar '/' s.toList).headD [])

/-- The door-identifier parsing of `predict_price` (prediction_api.py
63-73).  The three `int(...)` conversions run sequentially inside one
`try`; the first failure (missing piece or non-numeric piece) aborts the
block, so later fields keep the initial fallback 1 while fields already
assigned keep their parsed values. -/
def parse_tr_door_no (tr_door_no : String) : Int × Int × Int :=
  if tr_door_no = "" then (1, 1, 1)
  else
    let wbd := door_segments tr_door_no
    match pyToIntChars (wbd.getD 0 []) with
    | none => (1, 1, 1)
    | some w =>
      match (wbd[1]?).bind pyToIntChars with
      | none => (w, 1, 1)
      | some b =>
        match (wbd[2]?).bind pyToIntChars with
        | none => (w, b, 1)
        | some d => (w, b, d)

/-- The comparable-subset selection of `predict_price` (prediction_api.py
75-83): exact (mandal, village) matches, else mandal-only matches, else
the first 100 records of the corpus. -/
def similar_props (tirupati_data : List Record) (mandal village : String) :
    List Record :=
  let s1 := tirupati_data.filter
    (fun p => p.MANDAL == mandal && p.VILLAGE == village)
  let s2 := if s1 = [] then tirupati_data.filter (fun p => p.MANDAL == mandal)
    else s1
  if s2 = [] then tirupati_data.take 100 else s2

/-- One `sum(p.get(key, default) for p in props) / len(props)` average of
`predict_price` (prediction_api.py 86-89, 106). -/
def pyAvg (props : List Record) (f : Record → Option Rat) (d : Rat) : Rat :=
  (props.map (fun p => (f p).getD d)).sum / (props.length : Rat)

/-- The confidence tier of `predict_price` (prediction_api.py 119). -/
def confidence_of (n : Nat) : String :=
  if n > 50 then "HIGH" else if n > 10 then "MEDIUM" else "LOW"

/-- The price-range half-width of `predict_price` (prediction_api.py 122). -/
def variance_of (confidence : String) : Rat :=
  if confidence = "HIGH" then 8/100
  else if confidence = "MEDIUM" then 10/100
  else 12/100

/-- Python `int(float)`: truncation toward zero, exact on rationals. -/
def pyInt (q : Rat) : Int := q.num.tdiv (q.den : Int)

/-- One reduced comparable property of the response (prediction_api.py
129-139). -/
structure Comparable where
  propertyId : String
  location : String
  district : String
  mandal : String
  tr_door_no : String
  unit_rate : Rat
  comm_rate : Rat
  deriving DecidableEq

/-- The `data` payload of a successful `/api/predict` response
(prediction_api.py 141-167), integer-rounded exactly where the source
applies `int(...)`. -/
structure Response where
  predictedPrice : Int
  priceRangeMin : Int
  priceRangeMax : Int
  pricePerSqFt : Int
  confidence : String
  dataPoints : Nat
  modelUsed : String
  district : String
  mandal : String
  village : String
  tr_door_no : String
  area : Rat
  propertyType : String
  ward_no : Int
  block_no : Int
  door_no : Int
  avgCommRate : Int
  avgFloor1 : Int
  avgFloorOth : Int
  locationMatches : Nat
  comparableProperties : List Comparable
  deriving DecidableEq

/-- The JSON body of a `/api/predict` request; absent keys are `none`. -/
structure Request where
  district : Option String
  mandal : Option String
  village : Option String
  tr_door_no : Option String
  area : Option Rat
  propertyType : Option String
  deriving DecidableEq

/-- Type of the loaded regressor (`PropertyPriceLSTM.predict`), abstract
here: mandal, village, ward, block, door, then the four reference
averages, to a unit rate. -/
abbrev LstmPredict :=
  String → String → Int → Int → Int → Rat → Rat → Rat → Rat → Rat

/-- The predicted unit rate of `predict_price` (prediction_api.py
91-107): the regressor's output on the request features when a model is
loaded, else the matched subset's average `UNIT_RATE` with per-record
default 40000. -/
def pp_predicted_unit_rate (tirupati_data : List Record)
    (model_loaded : Bool) (lstm_predict : LstmPredict)
    (mandal village tr_door_no : String) : Rat :=
  let wbd := parse_tr_door_no tr_door_no
  let props := similar_props tirupati_data mandal village
  if model_loaded then
    lstm_predict mandal village wbd.1 wbd.2.1 wbd.2.2
      (pyAvg props Record.COMM_RATE 3000)
      (pyAvg props Record.COMP_FLOOR1 3500)
      (pyAvg props Record.COMP_FLOOR_OTH 3200)
      (pyAvg props Record.PRE_REV_UNIT_RATE 40000)
  else pyAvg props Record.UNIT_RATE 40000

/-- The per-area price (prediction_api.py 110-114).  The source's `elif
property_type == 'RESIDENTIAL'` branch reassigns the value the variable
already holds, so only the COMMERCIAL test is semantically visible. -/
def pp_price_per_sqft (tirupati_data : List Record) (model_loaded : Bool)
    (lstm_predict : LstmPredict) (mandal village tr_door_no : String)
    (property_type : String) : Rat :=
  if property_type = "COMMERCIAL" then
    pyAvg (similar_props tirupati_data mandal village) Record.COMM_RATE 3000
  else
    pp_predicted_unit_rate tirupati_data model_loaded lstm_predict
      mandal village tr_door_no

/-- `total_price = price_per_sqft * area` (prediction_api.py 116). -/
def pp_total (tirupati_data : List Record) (model_loaded : Bool)
    (lstm_predict : LstmPredict) (mandal village tr_door_no : String)
    (area : Rat) (property_type : String) : Rat :=
  pp_price_per_sqft tirupati_data model_loaded lstm_predict
    mandal village tr_door_no property_type * area

/-- The `data` payload built by `predict_price` on prediction_api.py
118-167, for a non-empty matched subset. -/
def pp_response (tirupati_data : List Record) (model_loaded : Bool)
    (lstm_predict : LstmPredict)
    (district mandal village tr_door_no : String) (area : Rat)
    (property_type : String) : Response :=
  let wbd := parse_tr_door_no tr_door_no
  let props := similar_props tirupati_data mandal village
  let total_price := pp_total tirupati_data model_loaded lstm_predict
    mandal village tr_door_no area property_type
  let confidence := confidence_of props.length
  let variance := variance_of confidence
  { predictedPrice := pyInt total_price
    priceRangeMin := pyInt (total_price * (1 - variance))
    priceRangeMax := pyInt (total_price * (1 + variance))
    pricePerSqFt := pyInt (pp_price_per_sqft tirupati_data model_loaded
      lstm_predict mandal village tr_door_no property_type)
    confidence := confidence
    dataPoints := props.length
    modelUsed := if model_loaded then "LSTM" else "AVERAGE"
    district := district
    mandal := mandal
    village := village
    tr_door_no := tr_door_no
    area := area
    propertyType := property_type
    ward_no := wbd.1
    block_no := wbd.2.1
    door_no := wbd.2.2
    avgCommRate := pyInt (pyAvg props Record.COMM_RATE 3000)
    avgFloor1 := pyInt (pyAvg props Record.COMP_FLOOR1 3500)
    avgFloorOth := pyInt (pyAvg props Record.COMP_FLOOR_OTH 3200)
    locationMatches := props.length
    comparableProperties := (props.take 5).map (fun prop =>
      { propertyId := prop.TR_DOOR_NO
        location := prop.VILLAGE ++ ", " ++ prop.MANDAL
        district := prop.DISTRICT
        mandal := prop.MANDAL
        tr_door_no := prop.TR_DOOR_NO
        unit_rate := prop.UNIT_RATE.getD 0
        comm_rate := prop.COMM_RATE.getD 0 }) }

/-- The body of `predict_price` (prediction_api.py 63-169) after input
extraction.  `none` models the `ZeroDivisionError` escaping to the
`except` handler when the matched subset is empty (possible only for an
empty corpus); the source divides by `len(similar_props)` on line 86,
before either prediction branch. -/
def pp_core (tirupati_data : List Record) (model_loaded : Bool)
    (lstm_predict : LstmPredict)
    (district mandal village tr_door_no : String) (area : Rat)
    (property_type : String) : Option Response :=
  if (similar_props tirupati_data mandal village).length = 0 then none
  else
    some (pp_response tirupati_data model_loaded lstm_predict
      district mandal village tr_door_no area property_type)

/-- `predict_price` (prediction_api.py 49-169): extract each input field
with its `data.get(key, default)` fallback, then run the body. -/
def predict_price (tirupati_data : List Record) (model_loaded : Bool)
    (lstm_predict : LstmPredict)
    (data : Request) : Option Response :=
  pp_core tirupati_data model_loaded lstm_predict
    (data.district.getD "Tirupati")
    (data.mandal.getD "Tirupati Urban")
    (data.village.getD "Tirupathi")
    (data.tr_door_no.getD "")
    (data.area.getD 1000)
    (data.propertyType.getD "RESIDENTIAL")

/-- Spec-side description of the request-default substitution: replace
every absent field by its documented fixed default. -/
def fill_defaults (req : Request) : Request :=
  { district := some (req.district.getD "Tirupati")
    mandal := some (req.mandal.getD "Tirupati Urban")
    village := some (req.village.getD "Tirupathi")
    tr_door_no := some (req.tr_door_no.getD "")
    area := some (req.area.getD 1000)
    propertyType := some (req.propertyType.getD "RESIDENTIAL") }

/-! ## Concrete fixtures used by the verification -/

/-- A record template for the training-path fixtures: positive unit rate,
all numeric fields present, one date per index. -/
def c2record (i : Nat) : Record :=
  { DISTRICT := "Tirupati", MANDAL := "A", VILLAGE := "X",
    TR_DOOR_NO := "1-1-1", WARD_NO := 1, BLOCK_NO := 1, DOOR_NO := 1,
    COMM_RATE := some 3000, COMP_FLOOR1 := some 3500,
    COMP_FLOOR_OTH := some 3200, PRE_REV_UNIT_RATE := some 40000,
    UNIT_RATE := some 40000, EFFECTIVE_DATE := i }

/-- A 5-record corpus: fewer than sequence_length + 1 = 11 records. -/
def corpus5 : List Record :=
  [c2record 1, c2record 2, c2record 3, c2record 4, c2record 5]

/-- A record in mandal "A" but village "Y" (mandal-level match only). -/
def rec4a : Record :=
  { DISTRICT := "Tirupati", MANDAL := "A", VILLAGE := "Y",
    TR_DOOR_NO := "2-2-2", WARD_NO := 2, BLOCK_NO := 2, DOOR_NO := 2,
    COMM_RATE := some 3100, COMP_FLOOR1 := some 3600,
    COMP_FLOOR_OTH := some 3300, PRE_REV_UNIT_RATE := some 41000,
    UNIT_RATE := some 41000, EFFECTIVE_DATE := 1 }

/-- A corpus whose only record matches mandal "A" but not village "X". -/
def corpus4 : List Record := [rec4a]

/-- First record of the end-to-end example corpus: (A, X), rate 38000. -/
def rec61 : Record :=
  { DISTRICT := "Tirupati", MANDAL := "A", VILLAGE := "X",
    TR_DOOR_NO := "1-1-1", WARD_NO := 1, BLOCK_NO := 1, DOOR_NO := 1,
    COMM_RATE := some 3000, COMP_FLOOR1 := some 3500,
    COMP_FLOOR_OTH := some 3200, PRE_REV_UNIT_RATE := some 40000,
    UNIT_RATE := some 38000, EFFECTIVE_DATE := 1 }

/-- Second record of the example corpus: (A, X), rate 40000. -/
def rec62 : Record :=
  { DISTRICT := "Tirupati", MANDAL := "A", VILLAGE := "X",
    TR_DOOR_NO := "1-1-2", WARD_NO := 1, BLOCK_NO := 1, DOOR_NO := 2,
    COMM_RATE := some 3000, COMP_FLOOR1 := some 3500,
    COMP_FLOOR_OTH := some 3200, PRE_REV_UNIT_RATE := some 40000,
    UNIT_RATE := some 40000, EFFECTIVE_DATE := 2 }

/-- Third record of the example corpus: (A, X), rate 42000. -/
def rec63 : Record :=
  { DISTRICT := "Tirupati", MANDAL := "A", VILLAGE := "X",
    TR_DOOR_NO := "1-1-3", WARD_NO := 1, BLOCK_NO := 1, DOOR_NO := 3,
    COMM_RATE := some 3000, COMP_FLOOR1 := some 3500,
    COMP_FLOOR_OTH := some 3200, PRE_REV_UNIT_RATE := some 40000,
    UNIT_RATE := some 42000, EFFECTIVE_DATE := 3 }

/-- The end-to-end example corpus of the spec: three (A, X) records with
unit rates 38000, 40000, 42000. -/
def corpus6 : List Record := [rec61, rec62, rec63]

/-- The end-to-end example request: (A, X), area 1000, RESIDENTIAL. -/
def req6 : Request :=
  { district := none, mandal := some "A", village := some "X",
    tr_door_no := none, area := some 1000,
    propertyType := some "RESIDENTIAL" }

/-- A dummy regressor (never consulted when no model is loaded). -/
def lp6 : LstmPredict := fun _ _ _ _ _ _ _ _ _ => 0

/-- A record with a negative unit rate, located at (A, X). -/
def recBad : Record :=
  { DISTRICT := "Tirupati", MANDAL := "A", VILLAGE := "X",
    TR_DOOR_NO := "3-3-3", WARD_NO := 3, BLOCK_NO := 3, DOOR_NO := 3,
    COMM_RATE := some 3000, COMP_FLOOR1 := some 3500,
    COMP_FLOOR_OTH := some 3200, PRE_REV_UNIT_RATE := some 40000,
    UNIT_RATE := some (-5), EFFECTIVE_DATE := 1 }

/-- A serving corpus containing only the invalid-rate record. -/
def badCorpus : List Record := [recBad]

/-- A record with a positive unit rate. -/
def recGood : Record :=
  { DISTRICT := "Tirupati", MANDAL := "A", VILLAGE := "X",
    TR_DOOR_NO := "4-4-4", WARD_NO := 4, BLOCK_NO := 4, DOOR_NO := 4,
    COMM_RATE := some 3000, COMP_FLOOR1 := some 3500,
    COMP_FLOOR_OTH := some 3200, PRE_REV_UNIT_RATE := some 40000,
    UNIT_RATE := some 41000, EFFECTIVE_DATE := 2 }

/-- A mixed corpus: one invalid-rate and one valid-rate record. -/
def w9corpus : List Record := [recBad, recGood]

/-- A one-record corpus in a location unrelated to the request defaults. -/
def corpus5c : List Record :=
  [{ DISTRICT := "Tirupati", MANDAL := "B", VILLAGE := "Z",
     TR_DOOR_NO := "5-5-5", WARD_NO := 5, BLOCK_NO := 5, DOOR_NO := 5,
     COMM_RATE := some 3000, COMP_FLOOR1 := some 3500,
     COMP_FLOOR_OTH := some 3200, PRE_REV_UNIT_RATE := some 40000,
     UNIT_RATE := some 39000, EFFECTIVE_DATE := 1 }]

/-- A dummy regressor for the confidence-tier witness. -/
def lp5 : LstmPredict := fun _ _ _ _ _ _ _ _ _ => 0

/-- An all-fields-absent request. -/
def req_blank : Request :=
  { district := none, mandal := none, village := none, tr_door_no := none,
    area := none, propertyType := none }

/-- A placeholder response (default for `Option.getD`; never the value
actually produced in the witnesses below). -/
def blank_response : Response :=
  { predictedPrice := 0, priceRangeMin := 0, priceRangeMax := 0,
    pricePerSqFt := 0, confidence := "", dataPoints := 0, modelUsed := "",
    district := "", mandal := "", village := "", tr_door_no := "",
    area := 0, propertyType := "", ward_no := 0, block_no := 0,
    door_no := 0, avgCommRate := 0, avgFloor1 := 0, avgFloorOth := 0,
    locationMatches := 0, comparableProperties := [] }

/-- The concrete response of the confidence-tier witness request. -/
def c5resp : Response :=
  (predict_price corpus5c false lp5 req_blank).getD blank_response

/-- A one-record corpus for the request-defaults witness. -/
def corpus10 : List Record := [c2record 7]

/-- A dummy regressor for the request-defaults witness. -/
def lp10 : LstmPredict := fun _ _ _ _ _ _ _ _ _ => 0

/-! ## Theorems -/

/-- An index below the bound reads back the generating function of a
`range`-driven `map`. -/
theorem getD_map_range (f : Nat → α) (n i : Nat) (d : α) (h : i < n) :
    ((List.range n).map f).getD i d = f i := by
  rw [List.getD_eq_getElem?_getD, List.getElem?_map, List.getElem?_range h]
  rfl

/-- C1: training-mode sequence construction over a table of length N with
targets produces exactly max(0, N−L) sequences; sequence i is rows
[i, i+L) of the table, has width exactly L, and its target is the target
value at row i+L. -/
theorem create_sequences_spec (L : Nat) (features : List (List Rat))
    (target : List Rat) (_hlen : target.length = features.length) :
    (create_sequences L features target).1.length = features.length - L ∧
    (((create_sequences L features target).1.length : Int) =
      max 0 ((features.length : Int) - (L : Int))) ∧
    (create_sequences L features target).2.length = features.length - L ∧
    ∀ i, i < features.length - L →
      ((create_sequences L features target).1.getD i []).length = L ∧
      (∀ j, j < L →
        ((create_sequences L features target).1.getD i []).getD j [] =
          features.getD (i + j) []) ∧
      (create_sequences L features target).2.getD i 0 =
        target.getD (i + L) 0 := by
  refine ⟨?_, ?_, ?_, ?_⟩
  · simp [create_sequences]
  · simp only [create_sequences, List.length_map, List.length_range]
    omega
  · simp [create_sequences]
  · intro i hi
    have hx : (create_sequences L features target).1.getD i [] =
        (features.drop i).take L := getD_map_range _ _ _ _ hi
    refine ⟨?_, ?_, ?_⟩
    · rw [hx, List.length_take, List.length_drop]
      omega
    · intro j hj
      rw [hx]
      simp only [List.getD_eq_getElem?_getD]
      rw [List.getElem?_take, if_pos hj, List.getElem?_drop]
    · exact getD_map_range _ _ _ _ hi

/-- C1 witness: the theorem evaluated on the concrete 3-row table
[[5],[6],[7]] with targets [50,60,70] and L = 2. -/
theorem create_sequences_spec_witness :
    (create_sequences 2 [[(5:Rat)],[6],[7]] [50,60,70]).1.length = 1 ∧
    ((create_sequences 2 [[(5:Rat)],[6],[7]] [50,60,70]).1.getD 0 []).getD 0 []
      = [[(5:Rat)],[6],[7]].getD 0 [] ∧
    (create_sequences 2 [[(5:Rat)],[6],[7]] [50,60,70]).2.getD 0 0
      = [(50:Rat),60,70].getD 2 0 := by
  have h := create_sequences_spec 2 [[(5:Rat)],[6],[7]] [50,60,70] rfl
  have h0 := h.2.2.2 0 (by decide)
  exact ⟨h.1, h0.2.1 0 (by decide), h0.2.2⟩

/-- C3: inference-mode sequence synthesis from one encoded vector V with
sequence_length L ≥ 1 produces exactly L elements, each equal to V. -/
theorem predict_sequence_spec (v : List Rat) (L : Nat) (_hL : 1 ≤ L) :
    (predict_sequence L v).length = L ∧
    ∀ x ∈ predict_sequence L v, x = v := by
  refine ⟨by simp [predict_sequence], ?_⟩
  intro x hx
  exact List.eq_of_mem_replicate hx

/-- C3 witness: the theorem evaluated at L = 10 (the source's
sequence_length) and the one-entry vector [1]. -/
theorem predict_sequence_spec_witness :
    (predict_sequence 10 [(1:Rat)]).length = 10 ∧ [(1:Rat)] = [(1:Rat)] := by
  have h := predict_sequence_spec [(1:Rat)] 10 (by decide)
  exact ⟨h.1, h.2 [(1:Rat)] (by simp [predict_sequence])⟩

/-- C8: a category never seen at fit time makes the underlying transform
signal (none), and the serving-time wrapper turns that into the fixed
default code 0, for the mandal encoder and the village encoder alike. -/
theorem unseen_category_spec (mandal_classes village_classes : List String)
    (m v : String) (hm : m ∉ mandal_classes) (hv : v ∉ village_classes) :
    label_transform mandal_classes m = none ∧
    encode_or_default mandal_classes m = 0 ∧
    label_transform village_classes v = none ∧
    encode_or_default village_classes v = 0 := by
  have h1 : label_transform mandal_classes m = none := by
    simp [label_transform, hm]
  have h2 : label_transform village_classes v = none := by
    simp [label_transform, hv]
  exact ⟨h1, by simp [encode_or_default, h1], h2,
    by simp [encode_or_default, h2]⟩

/-- C8 witness: concrete unseen categories against concrete fitted
classes. -/
theorem unseen_category_spec_witness :
    label_transform ["Tirupati Urban"] "Chandragiri" = none ∧
    encode_or_default ["Tirupati Urban"] "Chandragiri" = 0 ∧
    label_transform ["Tirupathi"] "NewVillage" = none ∧
    encode_or_default ["Tirupathi"] "NewVillage" = 0 :=
  unseen_category_spec _ _ _ _ (by decide) (by decide)

/-- C7 counterexample: "5-x" is a parse failure (its second piece is
non-numeric), yet the parsed ward keeps the value 5 — the result is
(5, 1, 1), not the claimed all-1 fallback. -/
theorem door_parse_counterexample :
    parse_tr_door_no "5-x" = (5, 1, 1) ∧
    parse_tr_door_no "5-x" ≠ (1, 1, 1) := by
  constructor <;> decide

/-- C7 amended: the door identifier is split on '/' and its first segment
on '-'; ward, block, door are converted sequentially, and on the first
failing piece (missing or non-numeric) the remaining fields keep the
fallback 1 while fields already parsed keep their values; "abc" yields
(1, 1, 1); the request never fails. -/
theorem door_parse_amended (s : String) :
    (s = "" → parse_tr_door_no s = (1, 1, 1)) ∧
    (s ≠ "" → pyToIntChars ((door_segments s).getD 0 []) = none →
      parse_tr_door_no s = (1, 1, 1)) ∧
    (∀ w, s ≠ "" → pyToIntChars ((door_segments s).getD 0 []) = some w →
      ((door_segments s)[1]?).bind pyToIntChars = none →
      parse_tr_door_no s = (w, 1, 1)) ∧
    (∀ w b, s ≠ "" → pyToIntChars ((door_segments s).getD 0 []) = some w →
      ((door_segments s)[1]?).bind pyToIntChars = some b →
      ((door_segments s)[2]?).bind pyToIntChars = none →
      parse_tr_door_no s = (w, b, 1)) ∧
    (∀ w b d, s ≠ "" → pyToIntChars ((door_segments s).getD 0 []) = some w →
      ((door_segments s)[1]?).bind pyToIntChars = some b →
      ((door_segments s)[2]?).bind pyToIntChars = some d →
      parse_tr_door_no s = (w, b, d)) ∧
    parse_tr_door_no "abc" = (1, 1, 1) := by
  refine ⟨fun h => by subst h; decide,
    fun h h0 => by simp only [parse_tr_door_no, if_neg h, h0],
    fun w h h0 h1 => by simp only [parse_tr_door_no, if_neg h, h0, h1],
    fun w b h h0 h1 h2 => by
      simp only [parse_tr_door_no, if_neg h, h0, h1, h2],
    fun w b d h h0 h1 h2 => by
      simp only [parse_tr_door_no, if_neg h, h0, h1, h2],
    by decide⟩

/-- C7 amended witness: a fully well-formed identifier parses to its three
numeric pieces. -/
theorem door_parse_amended_witness :
    parse_tr_door_no "7-8-9/B" = (7, 8, 9) :=
  ((door_parse_amended "7-8-9/B").2.2.2.2.1) 7 8 9 (by decide) (by decide)
    (by decide) (by decide)

/-- Membership is invariant under sorted insertion. -/
theorem mem_insertLe (le : α → α → Bool) (a x : α) (l : List α) :
    x ∈ insertLe le a l ↔ x ∈ a :: l := by
  induction l with
  | nil => simp [insertLe]
  | cons y ys ih =>
    by_cases h : le a y
    · simp [insertLe, h]
    · simp only [insertLe, if_neg h, List.mem_cons, ih]
      tauto

/-- Membership is invariant under the insertion sort. -/
theorem mem_insertionSort (le : α → α → Bool) (x : α) (l : List α) :
    x ∈ insertionSort le l ↔ x ∈ l := by
  induction l with
  | nil => simp [insertionSort]
  | cons y ys ih =>
    simp only [insertionSort]
    rw [mem_insertLe]
    simp [ih]

/-- A non-empty corpus always yields a non-empty matched subset (the
100-record global fallback guarantees it). -/
theorem similar_props_ne_nil (corpus : List Record) (m v : String)
    (h : corpus ≠ []) : similar_props corpus m v ≠ [] := by
  simp only [similar_props]
  by_cases hs :
      (if corpus.filter (fun p => p.MANDAL == m && p.VILLAGE == v) = []
        then corpus.filter (fun p => p.MANDAL == m)
        else corpus.filter (fun p => p.MANDAL == m && p.VILLAGE == v)) = []
  · rw [if_pos hs]
    intro hc
    rcases List.take_eq_nil_iff.mp hc with h100 | hcorp
    · exact absurd h100 (by decide)
    · exact h hcorp
  · rw [if_neg hs]
    exact hs

/-- A successful `predict_price` call has a non-empty matched subset and
returns exactly the `pp_response` payload on the default-substituted
request fields. -/
theorem predict_price_eq_some (td : List Record) (ml : Bool)
    (lp : LstmPredict) (req : Request) (resp : Response)
    (h : predict_price td ml lp req = some resp) :
    (similar_props td (req.mandal.getD "Tirupati Urban")
        (req.village.getD "Tirupathi")).length ≠ 0 ∧
    resp = pp_response td ml lp (req.district.getD "Tirupati")
      (req.mandal.getD "Tirupati Urban") (req.village.getD "Tirupathi")
      (req.tr_door_no.getD "") (req.area.getD 1000)
      (req.propertyType.getD "RESIDENTIAL") := by
  by_cases h0 : (similar_props td (req.mandal.getD "Tirupati Urban")
      (req.village.getD "Tirupathi")).length = 0
  · simp only [predict_price, pp_core] at h
    rw [if_pos h0] at h
    exact absurd h (by simp)
  · simp only [predict_price, pp_core] at h
    rw [if_neg h0] at h
    exact ⟨h0, (Option.some.inj h).symm⟩

/-- `pyInt` is the identity on integers. -/
theorem pyInt_intCast (n : Int) : pyInt ((n : Int) : Rat) = n := by
  simp [pyInt, Rat.num_intCast, Rat.den_intCast]

/-- C2 (code bug): on a 5-record corpus — fewer than
sequence_length + 1 = 11 chronologically ordered records — the training
data-preparation path produces zero sequences and returns them silently;
no insufficient-data check exists anywhere on the path, so training
proceeds to the train/test splitter with an empty dataset instead of
aborting with a clear diagnostic. -/
theorem train_silent_on_insufficient_data :
    corpus5.length = 5 ∧
    corpus5.length < default_sequence_length + 1 ∧
    (load_data corpus5).length = 5 ∧
    train_prepared default_sequence_length corpus5 = ([], []) := by
  refine ⟨rfl, by decide, by decide, by decide⟩

/-- C4: the reference subset is chosen in the fixed relaxation order —
exact (mandal, village) matches, else mandal-only matches, else the
first 100 records of the corpus — and each reference statistic is the
arithmetic mean of its field over that subset with the per-record
defaults (commercial 3000, floor-1 3500, other-floor 3200, pre-revision
40000, unit rate 40000) substituted for absent fields. -/
theorem similar_props_spec (corpus : List Record) (mandal village : String) :
    (corpus.filter (fun p => p.MANDAL == mandal && p.VILLAGE == village) ≠ [] →
      similar_props corpus mandal village =
        corpus.filter (fun p => p.MANDAL == mandal && p.VILLAGE == village)) ∧
    (corpus.filter (fun p => p.MANDAL == mandal && p.VILLAGE == village) = [] →
      corpus.filter (fun p => p.MANDAL == mandal) ≠ [] →
      similar_props corpus mandal village =
        corpus.filter (fun p => p.MANDAL == mandal)) ∧
    (corpus.filter (fun p => p.MANDAL == mandal && p.VILLAGE == village) = [] →
      corpus.filter (fun p => p.MANDAL == mandal) = [] →
      similar_props corpus mandal village = corpus.take 100) ∧
    (∀ (props : List Record) (f : Record → Option Rat) (d : Rat),
      props ≠ [] →
      pyAvg props f d * (props.length : Rat) =
        (props.map (fun p => (f p).getD d)).sum) ∧
    (∀ (ml : Bool) (lp : LstmPredict) (req : Request) (resp : Response),
      req.mandal = some mandal → req.village = some village →
      predict_price corpus ml lp req = some resp →
      resp.avgCommRate =
        pyInt (pyAvg (similar_props corpus mandal village)
          Record.COMM_RATE 3000) ∧
      resp.avgFloor1 =
        pyInt (pyAvg (similar_props corpus mandal village)
          Record.COMP_FLOOR1 3500) ∧
      resp.avgFloorOth =
        pyInt (pyAvg (similar_props corpus mandal village)
          Record.COMP_FLOOR_OTH 3200)) := by
  refine ⟨?_, ?_, ?_, ?_, ?_⟩
  · intro h1
    simp only [similar_props]
    rw [if_neg h1, if_neg h1]
  · intro h1 h2
    simp only [similar_props]
    rw [if_pos h1, if_neg h2]
  · intro h1 h2
    simp only [similar_props]
    rw [if_pos h1, if_pos h2]
  · intro props f d hne
    have hlen : (props.length : Rat) ≠ 0 := by
      simp [List.length_eq_zero, hne]
    rw [pyAvg, div_mul_cancel₀ _ hlen]
  · intro ml lp req resp hm hv h
    obtain ⟨h0, rfl⟩ := predict_price_eq_some corpus ml lp req resp h
    rw [hm, hv]
    exact ⟨rfl, rfl, rfl⟩

/-- C4 witness: a corpus with no exact (A, X) match but a mandal-A match
resolves to the mandal-only subset. -/
theorem similar_props_spec_witness :
    similar_props corpus4 "A" "X" =
      corpus4.filter (fun p => p.MANDAL == "A") :=
  (similar_props_spec corpus4 "A" "X").2.1 (by decide) (by decide)

/-- C5: the confidence tier depends only on the matched-subset size —
HIGH iff size > 50, MEDIUM iff 10 < size ≤ 50, LOW iff size ≤ 10, with
the boundary values 51, 50, 11, 10 and 0 as claimed — and every
successful response carries that tier together with the price range
[total*(1-v), total*(1+v)] for the tier's half-width v (8%, 10%, 12%),
integer-truncated at the response boundary. -/
theorem confidence_range_spec :
    (∀ s : Nat,
      (confidence_of s = "HIGH" ↔ 50 < s) ∧
      (confidence_of s = "MEDIUM" ↔ 10 < s ∧ s ≤ 50) ∧
      (confidence_of s = "LOW" ↔ s ≤ 10)) ∧
    confidence_of 51 = "HIGH" ∧
    confidence_of 50 = "MEDIUM" ∧
    confidence_of 11 = "MEDIUM" ∧
    confidence_of 10 = "LOW" ∧
    confidence_of 0 = "LOW" ∧
    (∀ s : Nat, variance_of (confidence_of s) =
      if 50 < s then 8/100 else if 10 < s then 10/100 else 12/100) ∧
    (∀ (td : List Record) (ml : Bool) (lp : LstmPredict) (req : Request)
        (resp : Response),
      predict_price td ml lp req = some resp →
      resp.confidence = confidence_of resp.dataPoints ∧
      ∃ total : Rat,
        resp.predictedPrice = pyInt total ∧
        resp.priceRangeMin =
          pyInt (total * (1 - variance_of (confidence_of resp.dataPoints))) ∧
        resp.priceRangeMax =
          pyInt (total * (1 + variance_of (confidence_of resp.dataPoints)))) := by
  have hH : ∀ s : Nat, 50 < s → confidence_of s = "HIGH" := by
    intro s h
    simp [confidence_of, h]
  have hM : ∀ s : Nat, 10 < s → s ≤ 50 → confidence_of s = "MEDIUM" := by
    intro s h1 h2
    have hx : ¬ s > 50 := by omega
    simp [confidence_of, hx, h1]
  have hL : ∀ s : Nat, s ≤ 10 → confidence_of s = "LOW" := by
    intro s h
    have h1 : ¬ s > 50 := by omega
    have h2 : ¬ s > 10 := by omega
    simp [confidence_of, h1, h2]
  refine ⟨?_, by decide, by decide, by decide, by decide, by decide, ?_, ?_⟩
  · intro s
    rcases Nat.lt_or_ge 50 s with h1 | h1
    · rw [hH s h1]
      exact ⟨⟨fun _ => h1, fun _ => rfl⟩,
        ⟨fun hx => absurd hx (by decide), fun hx => absurd hx.2 (by omega)⟩,
        ⟨fun hx => absurd hx (by decide), fun hx => absurd hx (by omega)⟩⟩
    · rcases Nat.lt_or_ge 10 s with h2 | h2
      · rw [hM s h2 h1]
        exact ⟨⟨fun hx => absurd hx (by decide), fun hx => absurd hx (by omega)⟩,
          ⟨fun _ => ⟨h2, h1⟩, fun _ => rfl⟩,
          ⟨fun hx => absurd hx (by decide), fun hx => absurd hx (by omega)⟩⟩
      · rw [hL s h2]
        exact ⟨⟨fun hx => absurd hx (by decide), fun hx => absurd hx (by omega)⟩,
          ⟨fun hx => absurd hx (by decide), fun hx => absurd hx.1 (by omega)⟩,
          ⟨fun _ => h2, fun _ => rfl⟩⟩
  · intro s
    have vH : variance_of "HIGH" = 8/100 := by simp [variance_of]
    have vM : variance_of "MEDIUM" = 10/100 := by simp [variance_of]
    have vL : variance_of "LOW" = 12/100 := by simp [variance_of]
    rcases Nat.lt_or_ge 50 s with h1 | h1
    · rw [hH s h1, vH, if_pos h1]
    · rcases Nat.lt_or_ge 10 s with h2 | h2
      · rw [hM s h2 h1, vM, if_neg (by omega), if_pos h2]
      · rw [hL s h2, vL, if_neg (by omega), if_neg (by omega)]
  · intro td ml lp req resp h
    obtain ⟨h0, rfl⟩ := predict_price_eq_some td ml lp req resp h
    exact ⟨rfl,
      pp_total td ml lp (req.mandal.getD "Tirupati Urban")
        (req.village.getD "Tirupathi") (req.tr_door_no.getD "")
        (req.area.getD 1000) (req.propertyType.getD "RESIDENTIAL"),
      rfl, rfl, rfl⟩

/-- C5 witness: the response-linking part of the theorem evaluated on a
concrete one-record corpus and the all-defaults request. -/
theorem confidence_range_spec_witness :
    c5resp.confidence = confidence_of c5resp.dataPoints ∧
    ∃ total : Rat,
      c5resp.predictedPrice = pyInt total ∧
      c5resp.priceRangeMin =
        pyInt (total * (1 - variance_of (confidence_of c5resp.dataPoints))) ∧
      c5resp.priceRangeMax =
        pyInt (total * (1 + variance_of (confidence_of c5resp.dataPoints))) :=
  confidence_range_spec.2.2.2.2.2.2.2 corpus5c false lp5 req_blank c5resp rfl

/-- C6: when no trained regressor is available the predicted unit rate is
the matched subset's arithmetic mean unit rate and the response carries
the distinct model-used flag "AVERAGE"; on the concrete corpus with
(A, X) unit rates [38000, 40000, 42000], a RESIDENTIAL request for
(A, X) with area 1000 yields predictedPrice 40,000,000, confidence
"LOW", and range [35,200,000, 44,800,000]. -/
theorem fallback_prediction_spec :
    (∀ (corpus : List Record) (lp : LstmPredict) (req : Request)
        (resp : Response),
      predict_price corpus false lp req = some resp →
      resp.modelUsed = "AVERAGE" ∧ resp.modelUsed ≠ "LSTM" ∧
      (req.propertyType.getD "RESIDENTIAL" ≠ "COMMERCIAL" →
        resp.pricePerSqFt = pyInt (pyAvg (similar_props corpus
          (req.mandal.getD "Tirupati Urban") (req.village.getD "Tirupathi"))
          Record.UNIT_RATE 40000))) ∧
    (predict_price corpus6 false lp6 req6).map (fun r =>
        (r.predictedPrice, r.confidence, r.priceRangeMin, r.priceRangeMax,
          r.modelUsed))
      = some (40000000, "LOW", 35200000, 44800000, "AVERAGE") := by
  constructor
  · intro corpus lp req resp h
    obtain ⟨h0, rfl⟩ := predict_price_eq_some corpus false lp req resp h
    refine ⟨rfl, ?_, ?_⟩
    · show ("AVERAGE" : String) ≠ "LSTM"
      decide
    · intro hpt
      have hpp : pp_price_per_sqft corpus false lp
          (req.mandal.getD "Tirupati Urban") (req.village.getD "Tirupathi")
          (req.tr_door_no.getD "") (req.propertyType.getD "RESIDENTIAL")
          = pyAvg (similar_props corpus (req.mandal.getD "Tirupati Urban")
              (req.village.getD "Tirupathi")) Record.UNIT_RATE 40000 := by
        simp only [pp_price_per_sqft, if_neg hpt]
        rfl
      exact congrArg pyInt hpp
  · have hsp : similar_props corpus6 "A" "X" = [rec61, rec62, rec63] := by
      decide
    have havg : pyAvg [rec61, rec62, rec63] Record.UNIT_RATE 40000 = 40000 := by
      norm_num [pyAvg, rec61, rec62, rec63]
    have hppu : pp_predicted_unit_rate corpus6 false lp6 "A" "X" "" = 40000 := by
      simp only [pp_predicted_unit_rate, hsp]
      rw [if_neg (by decide)]
      exact havg
    have hpps : pp_price_per_sqft corpus6 false lp6 "A" "X" "" "RESIDENTIAL"
        = 40000 := by
      simp only [pp_price_per_sqft]
      rw [if_neg (by decide)]
      exact hppu
    have htot : pp_total corpus6 false lp6 "A" "X" "" 1000 "RESIDENTIAL"
        = 40000000 := by
      rw [pp_total, hpps]
      norm_num
    have hconf : confidence_of (similar_props corpus6 "A" "X").length
        = "LOW" := by decide
    have h1 : predict_price corpus6 false lp6 req6 =
        some (pp_response corpus6 false lp6 "Tirupati" "A" "X" "" 1000
          "RESIDENTIAL") := by
      show pp_core corpus6 false lp6 "Tirupati" "A" "X" "" 1000 "RESIDENTIAL" =
        some (pp_response corpus6 false lp6 "Tirupati" "A" "X" "" 1000
          "RESIDENTIAL")
      simp only [pp_core]
      rw [if_neg (by decide)]
    rw [h1]
    simp only [Option.map_some', Option.some.injEq, Prod.mk.injEq]
    refine ⟨?_, by decide, ?_, ?_, by decide⟩
    · show pyInt (pp_total corpus6 false lp6 "A" "X" "" 1000 "RESIDENTIAL")
        = 40000000
      rw [htot, show (40000000 : Rat) = ((40000000 : Int) : Rat) by norm_num,
        pyInt_intCast]
    · show pyInt (pp_total corpus6 false lp6 "A" "X" "" 1000 "RESIDENTIAL" *
        (1 - variance_of (confidence_of
          (similar_props corpus6 "A" "X").length))) = 35200000
      rw [htot, hconf, show variance_of "LOW" = 12/100 by simp [variance_of],
        show ((40000000 : Rat) * (1 - 12/100)) = ((35200000 : Int) : Rat)
          by norm_num,
        pyInt_intCast]
    · show pyInt (pp_total corpus6 false lp6 "A" "X" "" 1000 "RESIDENTIAL" *
        (1 + variance_of (confidence_of
          (similar_props corpus6 "A" "X").length))) = 44800000
      rw [htot, hconf, show variance_of "LOW" = 12/100 by simp [variance_of],
        show ((40000000 : Rat) * (1 + 12/100)) = ((44800000 : Int) : Rat)
          by norm_num,
        pyInt_intCast]

/-- C6 witness: the general fallback part of the theorem evaluated on the
example corpus, request and response. -/
theorem fallback_prediction_spec_witness :
    ((predict_price corpus6 false lp6 req6).getD blank_response).modelUsed
      = "AVERAGE" ∧
    ((predict_price corpus6 false lp6 req6).getD blank_response).modelUsed
      ≠ "LSTM" :=
  have h := fallback_prediction_spec.1 corpus6 lp6 req6
    ((predict_price corpus6 false lp6 req6).getD blank_response) rfl
  ⟨h.1, h.2.1⟩

/-- C9 counterexample: the serving-side dataset loader performs no
filtering, so a record with unit rate -5 is loaded as-is, lands in the
reference-statistics matched subset, and is read by the mean — the
resulting average unit rate is -5. -/
theorem unit_rate_filter_counterexample :
    load_dataset badCorpus = badCorpus ∧
    recBad ∈ similar_props (load_dataset badCorpus) "A" "X" ∧
    recBad.UNIT_RATE.getD 40000 ≤ 0 ∧
    pyAvg (similar_props (load_dataset badCorpus) "A" "X")
      Record.UNIT_RATE 40000 = -5 := by
  refine ⟨rfl, by decide, by decide, ?_⟩
  have hsp : similar_props (load_dataset badCorpus) "A" "X" = [recBad] := by
    decide
  rw [hsp]
  norm_num [pyAvg, recBad]

/-- C9 amended: the training pipeline excludes every record with a
non-positive unit rate before any processing (load_data keeps only
records with unit rate > 0), but the serving-side loader used by the
reference-statistics lookup loads the corpus unfiltered. -/
theorem unit_rate_filter_amended (raw : List Record) :
    (∀ r, r ∈ load_data raw → 0 < r.UNIT_RATE.getD 0) ∧
    load_dataset raw = raw := by
  refine ⟨?_, rfl⟩
  intro r hr
  simp only [load_data] at hr
  have hr2 : r ∈ raw.filter (fun x => decide (0 < x.UNIT_RATE.getD 0)) :=
    (mem_insertionSort _ _ _).mp hr
  have hp := (List.mem_filter.mp hr2).2
  exact of_decide_eq_true hp

/-- C9 amended witness: the surviving record of a mixed concrete corpus
has a positive unit rate. -/
theorem unit_rate_filter_amended_witness :
    (0 : Rat) < recGood.UNIT_RATE.getD 0 :=
  (unit_rate_filter_amended w9corpus).1 recGood (by decide)

/-- C10: every absent request field is substituted by its fixed default
(district "Tirupati", mandal "Tirupati Urban", village "Tirupathi", door
identifier "" which parses to ward = block = door = 1, area 1000,
property type "RESIDENTIAL") before any computation: a request is
processed exactly like the same request with the defaults made explicit,
and an all-fields-absent request succeeds on any non-empty corpus. -/
theorem request_defaults_spec :
    (∀ (corpus : List Record) (ml : Bool) (lp : LstmPredict) (req : Request),
      predict_price corpus ml lp req =
        predict_price corpus ml lp (fill_defaults req)) ∧
    fill_defaults ⟨none, none, none, none, none, none⟩ =
      ⟨some "Tirupati", some "Tirupati Urban", some "Tirupathi", some "",
        some (1000 : Rat), some "RESIDENTIAL"⟩ ∧
    parse_tr_door_no "" = (1, 1, 1) ∧
    (∀ (corpus : List Record) (ml : Bool) (lp : LstmPredict),
      corpus ≠ [] →
      (predict_price corpus ml lp
        ⟨none, none, none, none, none, none⟩).isSome = true) := by
  refine ⟨fun corpus ml lp req => rfl, rfl, by decide, ?_⟩
  intro corpus ml lp hne
  have h0 : (similar_props corpus "Tirupati Urban" "Tirupathi").length ≠ 0 := by
    intro hl
    exact similar_props_ne_nil corpus "Tirupati Urban" "Tirupathi" hne
      (List.length_eq_zero.mp hl)
  show (pp_core corpus ml lp "Tirupati" "Tirupati Urban" "Tirupathi" ""
    1000 "RESIDENTIAL").isSome = true
  simp only [pp_core]
  rw [if_neg h0]
  rfl

/-- C10 witness: the success guarantee evaluated on a concrete one-record
corpus. -/
theorem request_defaults_spec_witness :
    (predict_price corpus10 false lp10
      ⟨none, none, none, none, none, none⟩).isSome = true :=
  request_defaults_spec.2.2.2 corpus10 false lp10 (by decide)
